import Mathlib

/-!
Shallow embedding of `autoencoders/models/bigae.py` (repository
`ivanshih/autoencoders`) and verification of its specification claims.

Images and latent tensors are modelled as finitely indexed functions; exact
rationals stand for the float arithmetic of the preprocessing pipeline and
real numbers for the analytic parts (softmax, Gaussian sampling).  Layers
delegated to external libraries (torchvision backbones, the BigGAN
generator) appear as abstract function fields of the wrapping structures,
exactly as the source treats them: opaque modules that are only composed.
-/

namespace BigAEModel

/-- An image tensor of shape (batch, channel = 3, height, width), rational
entries standing for the float values. -/
def Img (B H W : ℕ) : Type := Fin B → Fin 3 → Fin H → Fin W → ℚ

instance {B H W : ℕ} : DecidableEq (Img B H W) := by
  unfold Img; infer_instance

/-- `ResnetEncoder.mean` (bigae.py line 159-161): a constant property,
independent of the configuration. 0.485, 0.456, 0.406 as exact rationals. -/
def ResnetEncoder.meanVec : Fin 3 → ℚ := ![97/200, 57/125, 203/500]

/-- `ResnetEncoder.std` (bigae.py line 163-165): constant property.
0.229, 0.224, 0.225 as exact rationals. -/
def ResnetEncoder.stdVec : Fin 3 → ℚ := ![229/1000, 28/125, 9/40]

/-- Configuration dictionary `config["Model"]` as read by the module
(`retrieve` calls): the keys actually consulted in bigae.py. -/
structure PresetConfig where
  deterministic : Bool
  in_size : ℕ
  norm : String
  pretrained : Bool
  type : String
  use_actnorm_in_dec : Bool
  z_dim : ℕ
deriving DecidableEq, Repr

/-- The property `mean` as the source defines it: a method of the encoder
taking `self` (hence the configuration) and ignoring it (lines 159-161). -/
def ResnetEncoder.mean (_config : PresetConfig) : List ℚ :=
  [97/200, 57/125, 203/500]

/-- The property `std` (lines 163-165), likewise ignoring `self`. -/
def ResnetEncoder.std (_config : PresetConfig) : List ℚ :=
  [229/1000, 28/125, 9/40]

/-- The property `input_size` (lines 167-169): returns `[3, 224, 224]`
regardless of the configured `Model/in_size`. -/
def ResnetEncoder.input_size (_config : PresetConfig) : List ℕ :=
  [3, 224, 224]

/-- `rescale = lambda x: 0.5*(x+1)` (bigae.py line 92). -/
def rescale (x : ℚ) : ℚ := 0.5 * (x + 1)

/-- `torchvision.transforms.Normalize(mean, std)` acting per channel:
`(v - mean[c]) / std[c]`. -/
def normalize (c : Fin 3) (v : ℚ) : ℚ :=
  (v - ResnetEncoder.meanVec c) / ResnetEncoder.stdVec c

/-- `ResnetEncoder.image_transform` / `_pre_process` (lines 113-116, 151-153):
stack over the batch of `normalize(rescale(x))`, i.e. pointwise
`normalize ∘ rescale` on every pixel of every channel of every image. -/
def preProcess {B H W : ℕ} (x : Img B H W) : Img B H W :=
  fun b c h w => normalize c (rescale (x b c h w))

/-- The backbone sub-modules of a constructed `ResnetEncoder` (lines 134-149):
`conv1, bn1, relu, maxpool, layer1..layer4, avgpool` come from the external
torchvision resnet (abstract functions on tensors), and `fc` is the
`DenseEncoderLayer` that replaced the original classification head. -/
structure ResnetStages (B H W : ℕ) (F E : Type) where
  conv1 : Img B H W → F
  bn1 : F → F
  relu : F → F
  maxpool : F → F
  layer1 : F → F
  layer2 : F → F
  layer3 : F → F
  layer4 : F → F
  avgpool : F → F
  fc : F → E

/-- `ResnetEncoder.features` (lines 134-145): NOTE the source itself calls
`self._pre_process(x)` on line 135 before the backbone stages. -/
def ResnetStages.features {B H W : ℕ} {F E : Type}
    (m : ResnetStages B H W F E) (x : Img B H W) : F :=
  m.avgpool (m.layer4 (m.layer3 (m.layer2 (m.layer1
    (m.maxpool (m.relu (m.bn1 (m.conv1 (preProcess x)))))))))

/-- The raw backbone feature extraction: the stage chain
`conv1 → bn1 → relu → maxpool → layer1..4 → avgpool` with no preprocessing.
This is what the spec calls "extract backbone features". -/
def ResnetStages.rawFeatures {B H W : ℕ} {F E : Type}
    (m : ResnetStages B H W F E) (x : Img B H W) : F :=
  m.avgpool (m.layer4 (m.layer3 (m.layer2 (m.layer1
    (m.maxpool (m.relu (m.bn1 (m.conv1 x))))))))

/-- `ResnetEncoder.forward` (lines 128-132): `x = self._pre_process(x)`,
then `features = self.features(x)` (which pre-processes again),
then `encoding = self.model.fc(features)`. -/
def ResnetStages.forward {B H W : ℕ} {F E : Type}
    (m : ResnetStages B H W F E) (x : Img B H W) : E :=
  m.fc (m.features (preProcess x))

/-- Output length of one spatial dimension of `nn.Conv2d` / `nn.MaxPool2d`
with input length `n`, kernel `k`, stride `s`, padding `p` (dilation 1):
`⌊(n + 2p − k)/s⌋ + 1`. -/
def conv2dOutDim (n k s p : ℕ) : ℕ := (n + 2 * p - k) / s + 1

/-- `nn.AdaptiveAvgPool2d` output length: the requested target, whatever the
input length. torchvision resnets end in `AdaptiveAvgPool2d((1,1))`. -/
def adaptiveAvgPoolOutDim (target _n : ℕ) : ℕ := target

/-- One spatial dimension through the torchvision resnet feature pipeline
used by `ResnetEncoder.features`: `conv1` (7×7, stride 2, pad 3), `maxpool`
(3×3, stride 2, pad 1), `layer1` (stride 1), `layer2..layer4` (each
downsampling by a stride-2 convolution), and the adaptive average pool to 1.
Each spatial dimension is transformed independently by this same map. -/
def resnetPerDim (n : ℕ) : ℕ :=
  let c1 := conv2dOutDim n 7 2 3
  let mp := conv2dOutDim c1 3 2 1
  let l1 := mp
  let l2 := conv2dOutDim l1 3 2 1
  let l3 := conv2dOutDim l2 3 2 1
  let l4 := conv2dOutDim l3 3 2 1
  adaptiveAvgPoolOutDim 1 l4

/-- Shape `(batch, channels, height, width)` of `ResnetEncoder.features`
applied to an input of shape `(b, 3, h, w)`; `ch` is the backbone's final
channel count (512 or 2048 depending on depth). Height and width are mapped
independently by `resnetPerDim`. -/
def featuresShape (ch b h w : ℕ) : ℕ × ℕ × ℕ × ℕ :=
  (b, ch, resnetPerDim h, resnetPerDim w)

/-- `ResnetEncoder._get_spatial_size` (lines 155-157): probes with
`torch.randn(1, 3, ipt_size, ipt_size)` — a square input built from the
single configured integer — and returns `self.features(x).size()`. -/
def get_spatial_size (ch ipt_size : ℕ) : ℕ × ℕ × ℕ × ℕ :=
  featuresShape ch 1 ipt_size ipt_size

/-- The condition of the assertion on line 119:
`size_pre_fc[2] == size_pre_fc[3]` ("Output spatial size is not quadratic"). -/
def squareAssertHolds (s : ℕ × ℕ × ℕ × ℕ) : Prop := s.2.2.1 = s.2.2.2

instance (s : ℕ × ℕ × ℕ × ℕ) : Decidable (squareAssertHolds s) := by
  unfold squareAssertHolds; infer_instance

/-- The normalization-layer constructors selectable in `_norm_options`
(lines 87-90): `nn.InstanceNorm2d`, `nn.BatchNorm2d`, `ActNorm`. -/
inductive NormLayerKind where
  | instanceNorm2d
  | batchNorm2d
  | actNorm
deriving DecidableEq, Repr

/-- `_norm_options` (lines 87-90): a dictionary with exactly the keys
`"in"`, `"bn"`, `"an"`; lookup of any other key is a `KeyError`, modelled
as `none`. -/
def norm_options (s : String) : Option NormLayerKind :=
  if s = "in" then some NormLayerKind.instanceNorm2d
  else if s = "bn" then some NormLayerKind.batchNorm2d
  else if s = "an" then some NormLayerKind.actNorm
  else none

/-- The lookup `_norm_options[retrieve(config, "Model/norm")]` performed by
`ResnetEncoder.__init__` (line 108): an unrecognized token surfaces the
uncaught key-lookup error, modelled as `Except.error` carrying the key. -/
def resnetInitNormLookup (config : PresetConfig) : Except String NormLayerKind :=
  match norm_options config.norm with
  | some n => Except.ok n
  | none => Except.error config.norm

/-- Python `int()` applied to an exact value: truncation toward zero. -/
def pyInt (q : ℚ) : ℤ := if q < 0 then ⌈q⌉ else ⌊q⌋

/-- The channel/kernel configuration of the single `nn.Conv2d` built by
`DenseEncoderLayer.build` (lines 76-84). -/
structure Conv2dCfg where
  in_channels : ℤ
  out_channels : ℤ
  kernel_size : ℤ
  stride : ℤ
  padding : ℤ
  bias : Bool
deriving DecidableEq, Repr

/-- `DenseEncoderLayer` after `__init__` (lines 57-68): the stored scalar
attributes plus the conv layer produced by `build`. -/
structure DenseEncoderLayer where
  scale : ℤ
  wm : ℚ
  in_channels : ℤ
  out_channels : ℤ
  kernel_size : ℤ
  sub_layers : List Conv2dCfg
deriving DecidableEq, Repr

/-- `DenseEncoderLayer.__init__(scale, spatial_size, out_size, in_channels,
width_multiplier)` (lines 58-68): the default input-channel count is
`int(self.wm*64*min(2**(self.scale-1), 16))` — Python evaluates
`2**(scale-1)` exactly (a float half for `scale = 0`), modelled by a `zpow`
over ℚ — overridden when `in_channels` is given; then `build` constructs one
conv with `stride=1`, `padding=0`, `bias=True`. -/
def DenseEncoderLayer.make (scale : ℤ) (spatial_size out_size : ℤ)
    (in_channels : Option ℤ) (width_multiplier : ℚ) : DenseEncoderLayer :=
  let default_in : ℤ := pyInt (width_multiplier * 64 * min ((2 : ℚ) ^ (scale - 1)) 16)
  let inC : ℤ := in_channels.getD default_in
  { scale := scale
    wm := width_multiplier
    in_channels := inC
    out_channels := out_size
    kernel_size := spatial_size
    sub_layers := [{ in_channels := inC, out_channels := out_size,
                     kernel_size := spatial_size, stride := 1, padding := 0,
                     bias := true }] }

/-- `nn.Linear(inF, outF)`: weight matrix and bias over ℝ. -/
structure LinearLayer (inF outF : ℕ) where
  weight : Fin outF → Fin inF → ℝ
  bias : Fin outF → ℝ

/-- Application of a linear layer: `W x + b`. -/
noncomputable def LinearLayer.apply {inF outF : ℕ} (l : LinearLayer inF outF)
    (x : Fin inF → ℝ) : Fin outF → ℝ :=
  fun i => (∑ j, l.weight i j * x j) + l.bias i

/-- `nn.LeakyReLU()` with the default negative slope 0.01. -/
noncomputable def leakyReLU (x : ℝ) : ℝ := if x < 0 then 0.01 * x else x

/-- `nn.Sigmoid()`: `1 / (1 + exp(−x))`. -/
noncomputable def sigmoid (x : ℝ) : ℝ := 1 / (1 + Real.exp (-x))

/-- The parameters of a `ClassUp(dim, depth, hidden_dim, use_sigmoid,
out_dim)` module (lines 14-26): input projection, `depth` hidden blocks,
output projection, and the sigmoid flag.  (`hiddenLayers d` is the layer
appended at iteration `d` of the loop on lines 20-22.) -/
structure ClassUp (dim depth hidden_dim out_dim : ℕ) where
  use_sigmoid : Bool
  inLayer : LinearLayer dim hidden_dim
  hiddenLayers : ℕ → LinearLayer hidden_dim hidden_dim
  outLayer : LinearLayer hidden_dim out_dim

/-- `self.main` of `ClassUp` (lines 17-26): Linear → LeakyReLU, then `depth`
times (Linear → LeakyReLU), then the output Linear, then optionally
Sigmoid. -/
noncomputable def ClassUp.main {dim depth hidden_dim out_dim : ℕ}
    (c : ClassUp dim depth hidden_dim out_dim) (x : Fin dim → ℝ) :
    Fin out_dim → ℝ :=
  let h0 : Fin hidden_dim → ℝ := fun i => leakyReLU (c.inLayer.apply x i)
  let h : Fin hidden_dim → ℝ :=
    (List.range depth).foldl
      (fun h d => fun i => leakyReLU ((c.hiddenLayers d).apply h i)) h0
  let out : Fin out_dim → ℝ := c.outLayer.apply h
  if c.use_sigmoid then fun i => sigmoid (out i) else out

/-- `torch.nn.functional.softmax(x, dim=1)`: per batch row `b`,
`exp (x b i) / ∑ j, exp (x b j)`. -/
noncomputable def softmaxRow {n : ℕ} (v : Fin n → ℝ) : Fin n → ℝ :=
  fun i => Real.exp (v i) / ∑ j, Real.exp (v j)

/-- `ClassUp.forward` (lines 28-31): squeeze the two trailing singleton
dimensions of the `(B, dim, 1, 1)` input, apply `main`, then softmax along
dim 1 (the embedding axis). -/
noncomputable def ClassUp.forward {B dim depth hidden_dim out_dim : ℕ}
    (c : ClassUp dim depth hidden_dim out_dim)
    (x : Fin B → Fin dim → Fin 1 → Fin 1 → ℝ) : Fin B → Fin out_dim → ℝ :=
  fun b => softmaxRow (c.main (fun j => x b j 0 0))

/-- `BigGANDecoderWrapper` at call time (lines 51-54): the class-embedding
mapper and the external generator, as the two sub-modules `forward` uses. -/
structure BigGANDecoderWrapper (L Lab Emb I : Type) where
  map_to_class_embedding : L → Emb
  decoder : L → Emb → I

/-- `BigGANDecoderWrapper.forward(x, labels=None)` (lines 51-54):
`emb = self.map_to_class_embedding(x); x = self.decoder(x, emb)`.
The `labels` argument is bound but never read. -/
def BigGANDecoderWrapper.forward {L Lab Emb I : Type}
    (w : BigGANDecoderWrapper L Lab Emb I) (x : L) (_labels : Option Lab) : I :=
  w.decoder x (w.map_to_class_embedding x)

/-- Modelled from the spec: `DiagonalGaussianDistribution` lives in
`autoencoders/distributions`, which is not among the provided source files.
The spec describes it as parameterized by mean and log-variance tensors of
equal shape, split from the encoder output along the channel axis, and says
that when the deterministic flag is set "the distribution collapses to a
point mass at the mean (log-variance forced to a canonical degenerate
value) and sampling always returns the mean". -/
structure DiagonalGaussianDistribution (z : ℕ) where
  mean : Fin z → ℝ
  logvar : Fin z → ℝ
  deterministic : Bool

/-- Modelled from the spec: the standard deviation used by sampling;
`exp(0.5·logvar)` normally, forced to the degenerate value 0 (point mass)
when the distribution is deterministic. -/
noncomputable def DiagonalGaussianDistribution.stddev {z : ℕ}
    (d : DiagonalGaussianDistribution z) : Fin z → ℝ :=
  if d.deterministic then fun _ => 0
  else fun i => Real.exp (0.5 * d.logvar i)

/-- Modelled from the spec: reparameterized sampling
`mean + stddev * noise`; for a deterministic distribution the stddev is 0,
so every draw is exactly the mean. -/
noncomputable def DiagonalGaussianDistribution.sample {z : ℕ}
    (d : DiagonalGaussianDistribution z) (noise : Fin z → ℝ) : Fin z → ℝ :=
  fun i => d.mean i + d.stddev i * noise i

/-- Modelled from the spec: construction from the encoder output `h` of
channel length `2·z` — "mean and log-variance, concatenated", "split into
two halves along the channel axis" — together with the deterministic flag. -/
noncomputable def mkDiagonalGaussian (z : ℕ) (h : Fin (2 * z) → ℝ)
    (deterministic : Bool) : DiagonalGaussianDistribution z :=
  { mean := fun i => h (Fin.cast (two_mul z).symm (Fin.castAdd z i))
    logvar := fun i => h (Fin.cast (two_mul z).symm (Fin.natAdd z i))
    deterministic := deterministic }

/-- The fields of a `BigAE` that `encode` uses (lines 172-180, 222-225):
the determinism flag and the encoder, the latter abstract over its input
type `I` with output channel length `2·z`. -/
structure BigAEEnc (I : Type) (z : ℕ) where
  be_deterministic : Bool
  encoder : I → Fin (2 * z) → ℝ

/-- `BigAE.encode` (lines 222-225): run the encoder, wrap the result in a
`DiagonalGaussianDistribution` honoring the determinism flag. -/
noncomputable def BigAEEnc.encode {I : Type} {z : ℕ} (m : BigAEEnc I z)
    (input : I) : DiagonalGaussianDistribution z :=
  mkDiagonalGaussian z (m.encoder input) m.be_deterministic

/-- Process-global framework state: the cudnn benchmark flag that
`BigAE.__init__` mutates (lines 175-176), plus everything else in the
process (`other`, an arbitrary type), to express that nothing else is
touched. -/
structure GlobalState (α : Type) where
  cudnnBenchmark : Bool
  other : α

/-- The attributes `BigAE.__init__` stores (lines 172-180). The encoder and
decoder sub-modules are built from the same config; for the claims about
construction only the determinism flag matters, so the sub-modules are kept
as their configurations. -/
structure BigAEState where
  be_deterministic : Bool
  encoder_config : PresetConfig
  decoder_config : PresetConfig
deriving DecidableEq, Repr

/-- `BigAE.__init__(config)` (lines 172-180) as a state transformer on the
process-global state: it executes `cudnn.benchmark = True`, reads
`Model/deterministic` (default `False` — the structured config carries the
field), and builds the encoder and decoder.  No other global field is
written. -/
def bigAEConstruct {α : Type} (config : PresetConfig) (g : GlobalState α) :
    BigAEState × GlobalState α :=
  ({ be_deterministic := config.deterministic
     encoder_config := config
     decoder_config := config },
   { cudnnBenchmark := true, other := g.other })

/-- The `config_dict` literal of `BigAE.from_pretrained` (lines 184-207):
exactly the keys `"animals"` and `"animalfaces"`. -/
def config_dict (name : String) : Option PresetConfig :=
  if name = "animals" then
    some { deterministic := false, in_size := 128, norm := "an",
           pretrained := false, type := "resnet101",
           use_actnorm_in_dec := true, z_dim := 128 }
  else if name = "animalfaces" then
    some { deterministic := false, in_size := 128, norm := "bn",
           pretrained := false, type := "resnet101",
           use_actnorm_in_dec := false, z_dim := 128 }
  else none

/-- The `ckpt_dict` literal (lines 208-211). -/
def ckpt_dict (name : String) : Option String :=
  if name = "animals" then some "bigae_animals"
  else if name = "animalfaces" then some "bigae_animalfaces"
  else none

/-- The side effects `from_pretrained` performs after the name check, in
source order (lines 216-219): construct the model, resolve the checkpoint
path, load the state dict, switch to eval mode. -/
inductive FactoryEffect where
  | constructModel
  | resolveCkpt
  | loadCkpt
  | setEvalMode
deriving DecidableEq, Repr

/-- `BigAE.from_pretrained(name)` (lines 182-220): `if not name in
config_dict: raise NotImplementedError(name)` happens first, so on the
error path no model is constructed and no checkpoint is resolved or loaded
(the error carries only the offending name).  On the success path the model
is constructed from the preset config (mutating the global state as
`__init__` does) and the four effects run in order. -/
def from_pretrained {α : Type} (name : String) (g : GlobalState α) :
    Except String (BigAEState × GlobalState α × List FactoryEffect) :=
  match config_dict name with
  | none => Except.error name
  | some config =>
      let r := bigAEConstruct config g
      Except.ok (r.1, r.2,
        [FactoryEffect.constructModel, FactoryEffect.resolveCkpt,
         FactoryEffect.loadCkpt, FactoryEffect.setEvalMode])

/-! Concrete instances used to evaluate the embedded operations. -/

/-- A resnet-stage assembly with identity sub-modules on 1×1 single-image
tensors: the simplest instantiation of the abstract backbone, used to
evaluate the `forward` composition concretely. -/
def idStages : ResnetStages 1 1 1 (Img 1 1 1) (Img 1 1 1) :=
  { conv1 := id, bn1 := id, relu := id, maxpool := id,
    layer1 := id, layer2 := id, layer3 := id, layer4 := id,
    avgpool := id, fc := id }

/-- The all-zero 1×1 image. -/
def zeroImg : Img 1 1 1 := fun _ _ _ _ => 0

/-- A concrete `ClassUp` with zero weights, sigmoid enabled. -/
noncomputable def classUpW : ClassUp 1 0 1 1 :=
  { use_sigmoid := true
    inLayer := { weight := fun _ _ => 0, bias := fun _ => 0 }
    hiddenLayers := fun _ => { weight := fun _ _ => 0, bias := fun _ => 0 }
    outLayer := { weight := fun _ _ => 0, bias := fun _ => 0 } }

/-- A concrete zero input of shape (1, 1, 1, 1). -/
noncomputable def xW : Fin 1 → Fin 1 → Fin 1 → Fin 1 → ℝ := fun _ _ _ _ => 0

/-- A concrete deterministic `BigAE` encoder view with a zero encoder. -/
noncomputable def bigAEDetW : BigAEEnc Unit 1 :=
  { be_deterministic := true, encoder := fun _ _ => 0 }

/-- The `"animals"` preset configuration (lines 185-195). -/
def cfgAnimals : PresetConfig :=
  { deterministic := false, in_size := 128, norm := "an",
    pretrained := false, type := "resnet101",
    use_actnorm_in_dec := true, z_dim := 128 }

/-- A concrete global state with the benchmark flag off. -/
def gW : GlobalState ℕ := { cudnnBenchmark := false, other := 7 }

/-! Theorems settling the specification claims. -/

/-- C10: the `ResnetEncoder` properties `mean`, `std`, `input_size` are
constants independent of the configuration: `mean` is always
[0.485, 0.456, 0.406], `std` is always [0.229, 0.224, 0.225], and
`input_size` always returns [3, 224, 224] even when the configured
`Model/in_size` is a different value such as 128. -/
theorem resnet_constant_properties (config config2 : PresetConfig) :
    ResnetEncoder.mean config = [0.485, 0.456, 0.406] ∧
    ResnetEncoder.std config = [0.229, 0.224, 0.225] ∧
    ResnetEncoder.input_size config = [3, 224, 224] ∧
    ResnetEncoder.mean config = ResnetEncoder.mean config2 ∧
    ResnetEncoder.std config = ResnetEncoder.std config2 ∧
    ResnetEncoder.input_size config = ResnetEncoder.input_size config2 ∧
    ResnetEncoder.input_size { config with in_size := 128 } = [3, 224, 224] := by
  refine ⟨?_, ?_, rfl, rfl, rfl, rfl, rfl⟩ <;>
    norm_num [ResnetEncoder.mean, ResnetEncoder.std]

/-- C5: the probe input of `_get_spatial_size` is built square from the
single configured integer, and each spatial dimension passes through the
backbone independently (ending in an adaptive 1×1 pool), so the assertion
`size_pre_fc[2] == size_pre_fc[3]` of `ResnetEncoder.__init__` holds for
every backbone channel count and every configured input size: it never
fires for any supported configuration (a non-square configured input size
is not even expressible, `Model/in_size` being one integer). -/
theorem spatial_size_assert_never_fires (ch ipt_size : ℕ) :
    squareAssertHolds (get_spatial_size ch ipt_size) ∧
    (get_spatial_size ch ipt_size).2.2.1 = 1 ∧
    (get_spatial_size ch ipt_size).2.2.2 = 1 :=
  ⟨rfl, rfl, rfl⟩

/-- C7: a `DenseEncoderLayer(scale, spatial_size, out_size, in_channels,
width_multiplier)` has input-channel count equal to the explicitly provided
`in_channels` when given and otherwise
`int(width_multiplier · 64 · min(2^(scale−1), 16))`; its output-channel
count equals `out_size`, and its single convolution has kernel size
`spatial_size`, stride 1, no padding, and bias enabled. -/
theorem dense_encoder_layer_config (scale spatial_size out_size : ℤ)
    (in_channels : Option ℤ) (width_multiplier : ℚ) :
    (DenseEncoderLayer.make scale spatial_size out_size in_channels
        width_multiplier).in_channels =
      in_channels.getD
        (pyInt (width_multiplier * 64 * min ((2 : ℚ) ^ (scale - 1)) 16)) ∧
    (DenseEncoderLayer.make scale spatial_size out_size in_channels
        width_multiplier).out_channels = out_size ∧
    (DenseEncoderLayer.make scale spatial_size out_size in_channels
        width_multiplier).kernel_size = spatial_size ∧
    (DenseEncoderLayer.make scale spatial_size out_size in_channels
        width_multiplier).sub_layers =
      [{ in_channels :=
           in_channels.getD
             (pyInt (width_multiplier * 64 * min ((2 : ℚ) ^ (scale - 1)) 16)),
         out_channels := out_size, kernel_size := spatial_size,
         stride := 1, padding := 0, bias := true }] :=
  ⟨rfl, rfl, rfl, rfl⟩

/-- C8: `BigGANDecoderWrapper.forward` returns the same output for every
value of the optional `labels` argument: the result depends only on the
latent — the class embedding is computed from the latent and the generator
is invoked with (latent, embedding) — so `labels` is a dead parameter. -/
theorem decoder_wrapper_labels_dead {L Lab Emb I : Type}
    (w : BigGANDecoderWrapper L Lab Emb I) (x : L)
    (labels₁ labels₂ : Option Lab) :
    w.forward x labels₁ = w.forward x labels₂ ∧
    w.forward x labels₁ = w.decoder x (w.map_to_class_embedding x) :=
  ⟨rfl, rfl⟩

/-- C2 (counterexample): `ResnetEncoder.forward` does NOT equal the dense
head applied to the raw backbone features of the once-preprocessed input:
with identity sub-modules and identity head on a zero 1×1 image, the two
sides differ, because `forward` preprocesses and then calls `features`,
which preprocesses again. -/
theorem resnet_forward_once_counterexample :
    ¬ (idStages.forward zeroImg =
        idStages.fc (idStages.rawFeatures (preProcess zeroImg))) := by
  intro h
  have h0 := congrFun (congrFun (congrFun (congrFun h 0) 0) 0) 0
  simp only [ResnetStages.forward, ResnetStages.features,
    ResnetStages.rawFeatures, idStages, preProcess, normalize, rescale,
    zeroImg, ResnetEncoder.meanVec, ResnetEncoder.stdVec, id,
    Matrix.cons_val_zero] at h0
  norm_num at h0

/-- C2 (amended): `ResnetEncoder.forward` applies the image-preprocessing
transform twice — once directly and once inside `features` — and equals the
dense head applied to the raw backbone feature extraction of the
twice-preprocessed input. -/
theorem resnet_forward_double_preprocess {B H W : ℕ} {F E : Type}
    (m : ResnetStages B H W F E) (x : Img B H W) :
    m.forward x = m.fc (m.rawFeatures (preProcess (preProcess x))) :=
  rfl

/-- C1: for every input tensor of the configured latent dimensionality with
trailing singleton dimensions, `ClassUp.forward` is entrywise non-negative
and sums to 1 along the embedding axis (dim 1), because a softmax is the
final step — regardless of the `use_sigmoid` setting (the theorem
quantifies over all `ClassUp` parameters, including the flag). -/
theorem classUp_forward_simplex {B dim depth hidden_dim out_dim : ℕ}
    (c : ClassUp dim depth hidden_dim out_dim)
    (x : Fin B → Fin dim → Fin 1 → Fin 1 → ℝ) (hout : 0 < out_dim) :
    (∀ b i, 0 ≤ c.forward x b i) ∧ (∀ b, ∑ i, c.forward x b i = 1) := by
  have key : ∀ v : Fin out_dim → ℝ,
      (∀ i, 0 ≤ softmaxRow v i) ∧ (∑ i, softmaxRow v i = 1) := by
    intro v
    have hpos : 0 < ∑ j, Real.exp (v j) := by
      have hne : Nonempty (Fin out_dim) := ⟨⟨0, hout⟩⟩
      exact Finset.sum_pos (fun j _ => Real.exp_pos _) Finset.univ_nonempty
    refine ⟨fun i => div_nonneg (Real.exp_pos _).le hpos.le, ?_⟩
    unfold softmaxRow
    rw [← Finset.sum_div, div_self hpos.ne']
  exact ⟨fun b i => (key (c.main fun j => x b j 0 0)).1 i,
         fun b => (key (c.main fun j => x b j 0 0)).2⟩

/-- Witness for C1 at a concrete zero-weight `ClassUp` with the sigmoid
enabled and the zero input. -/
theorem classUp_forward_simplex_witness :
    0 < 1 ∧ ((∀ b i, 0 ≤ classUpW.forward xW b i) ∧
      (∀ b, ∑ i, classUpW.forward xW b i = 1)) :=
  ⟨by decide, classUp_forward_simplex classUpW xW (by decide)⟩

/-- C3: for a model whose determinism flag is set, the distribution
returned by `BigAE.encode` is a point mass at the mean: its standard
deviation is forced to the degenerate value 0, sampling returns exactly the
mean for every noise draw, and any two draws are identical. -/
theorem deterministic_encode_point_mass {I : Type} {z : ℕ}
    (m : BigAEEnc I z) (input : I) (hdet : m.be_deterministic = true) :
    (∀ noise, (m.encode input).sample noise = (m.encode input).mean) ∧
    (m.encode input).stddev = (fun _ => 0) ∧
    (∀ n₁ n₂, (m.encode input).sample n₁ = (m.encode input).sample n₂) := by
  have hd : (m.encode input).deterministic = true := hdet
  have hs : (m.encode input).stddev = fun _ => 0 := by
    unfold DiagonalGaussianDistribution.stddev
    rw [hd]
    simp
  have hsample : ∀ noise,
      (m.encode input).sample noise = (m.encode input).mean := by
    intro noise
    funext i
    unfold DiagonalGaussianDistribution.sample
    rw [hs]
    ring
  exact ⟨hsample, hs, fun n₁ n₂ => (hsample n₁).trans (hsample n₂).symm⟩

/-- Witness for C3 at a concrete deterministic model with a zero encoder. -/
theorem deterministic_encode_point_mass_witness :
    bigAEDetW.be_deterministic = true ∧
    ((∀ noise, (bigAEDetW.encode ()).sample noise = (bigAEDetW.encode ()).mean) ∧
     (bigAEDetW.encode ()).stddev = (fun _ => 0) ∧
     (∀ n₁ n₂, (bigAEDetW.encode ()).sample n₁ = (bigAEDetW.encode ()).sample n₂)) :=
  ⟨rfl, deterministic_encode_point_mass bigAEDetW () rfl⟩

/-- C4: `BigAE.from_pretrained` raises `NotImplementedError(name)` for
every name outside the closed set {"animals", "animalfaces"} — before any
model is constructed, any checkpoint resolved, or any state dict loaded —
and for exactly those two names it proceeds to build a model and run the
construct/resolve/load/eval sequence. -/
theorem from_pretrained_closed_set {α : Type} (name : String)
    (g : GlobalState α) :
    (name ≠ "animals" → name ≠ "animalfaces" →
      from_pretrained name g = Except.error name) ∧
    (∀ r, from_pretrained name g = Except.ok r →
      name = "animals" ∨ name = "animalfaces") ∧
    (name = "animals" ∨ name = "animalfaces" →
      ∃ model g2, from_pretrained name g = Except.ok (model, g2,
        [FactoryEffect.constructModel, FactoryEffect.resolveCkpt,
         FactoryEffect.loadCkpt, FactoryEffect.setEvalMode])) := by
  by_cases h1 : name = "animals"
  · subst h1
    refine ⟨fun h _ => absurd rfl h, fun r _ => Or.inl rfl, fun _ => ?_⟩
    exact ⟨_, _, rfl⟩
  · by_cases h2 : name = "animalfaces"
    · subst h2
      refine ⟨fun _ h => absurd rfl h, fun r _ => Or.inr rfl, fun _ => ?_⟩
      exact ⟨_, _, rfl⟩
    · have herr : from_pretrained name g = Except.error name := by
        unfold from_pretrained config_dict
        simp [h1, h2]
      refine ⟨fun _ _ => herr, fun r hr => ?_, fun hor => ?_⟩
      · rw [herr] at hr; exact absurd hr (by simp)
      · cases hor with
        | inl h => exact absurd h h1
        | inr h => exact absurd h h2

/-- Witness for C4: an unrecognized name errors with no construction, and
`"animals"` succeeds. -/
theorem from_pretrained_closed_set_witness :
    from_pretrained "unknown" gW = Except.error "unknown" ∧
    (∃ model g2, from_pretrained "animals" gW = Except.ok (model, g2,
      [FactoryEffect.constructModel, FactoryEffect.resolveCkpt,
       FactoryEffect.loadCkpt, FactoryEffect.setEvalMode])) :=
  ⟨(from_pretrained_closed_set "unknown" gW).1 (by decide) (by decide),
   (from_pretrained_closed_set "animals" gW).2.2 (Or.inl rfl)⟩

/-- C6: the normalization selector `_norm_options` maps exactly the three
tokens "in", "bn", "an" to the instance/batch/activation normalization
constructors, and the `ResnetEncoder.__init__` lookup with any other token
fails with the uncaught key-lookup error: the accepted set is closed. -/
theorem norm_options_closed :
    norm_options "in" = some NormLayerKind.instanceNorm2d ∧
    norm_options "bn" = some NormLayerKind.batchNorm2d ∧
    norm_options "an" = some NormLayerKind.actNorm ∧
    ∀ s : String, s ≠ "in" → s ≠ "bn" → s ≠ "an" →
      norm_options s = none ∧
      ∀ config : PresetConfig, config.norm = s →
        resnetInitNormLookup config = Except.error s := by
  refine ⟨rfl, rfl, rfl, fun s h1 h2 h3 => ⟨?_, ?_⟩⟩
  · simp [norm_options, h1, h2, h3]
  · intro config hc
    simp [resnetInitNormLookup, hc, norm_options, h1, h2, h3]

/-- Witness for C6 at the unrecognized token "gn". -/
theorem norm_options_closed_witness :
    norm_options "gn" = none ∧
    resnetInitNormLookup
      { deterministic := false, in_size := 128, norm := "gn",
        pretrained := false, type := "resnet50",
        use_actnorm_in_dec := false, z_dim := 128 } = Except.error "gn" :=
  ⟨(norm_options_closed.2.2.2 "gn" (by decide) (by decide) (by decide)).1,
   (norm_options_closed.2.2.2 "gn" (by decide) (by decide) (by decide)).2
     _ rfl⟩

/-- C9: constructing a `BigAE` sets the process-global cudnn benchmark flag
to `true` — on every direct construction and on every successful factory
construction — and changes no other global state (`other` is preserved). -/
theorem bigAE_construct_global_effect {α : Type} (config : PresetConfig)
    (g : GlobalState α) :
    (bigAEConstruct config g).2.cudnnBenchmark = true ∧
    (bigAEConstruct config g).2.other = g.other ∧
    (∀ name model g2 effects,
      from_pretrained name g = Except.ok (model, g2, effects) →
      g2.cudnnBenchmark = true ∧ g2.other = g.other) := by
  refine ⟨rfl, rfl, ?_⟩
  intro name model g2 effects h
  unfold from_pretrained at h
  cases hc : config_dict name with
  | none => rw [hc] at h; exact absurd h (by simp)
  | some cfg =>
      rw [hc] at h
      simp only [Except.ok.injEq, Prod.mk.injEq] at h
      obtain ⟨-, h2, -⟩ := h
      rw [← h2]
      exact ⟨rfl, rfl⟩

/-- Witness for C9: the factory path at `"animals"` on a state with the
flag off and `other = 7`. -/
theorem bigAE_construct_global_effect_witness :
    ((bigAEConstruct cfgAnimals gW).2.cudnnBenchmark = true ∧
     (bigAEConstruct cfgAnimals gW).2.other = gW.other) ∧
    ((bigAEConstruct cfgAnimals gW).2.cudnnBenchmark = true ∧
     (bigAEConstruct cfgAnimals gW).2.other = gW.other) :=
  ⟨⟨(bigAE_construct_global_effect cfgAnimals gW).1,
    (bigAE_construct_global_effect cfgAnimals gW).2.1⟩,
   (bigAE_construct_global_effect cfgAnimals gW).2.2 "animals"
     (bigAEConstruct cfgAnimals gW).1 (bigAEConstruct cfgAnimals gW).2
     [FactoryEffect.constructModel, FactoryEffect.resolveCkpt,
      FactoryEffect.loadCkpt, FactoryEffect.setEvalMode] rfl⟩

end BigAEModel
